import Mathlib

/-!
Verification of the HTTP error-mapping layer and server wiring of a
Rust web-service scaffold (`apps/server`). The definitions below are a
shallow embedding of `src/http/error.rs`, `src/http/mod.rs` and
`src/config.rs`; machine integers are modelled as `Nat` (no arithmetic
here overflows), Rust `Result` as `Except`, fallible operations as
`Option`.
-/

namespace Server

/-- A database-layer error as exposed by the `sqlx::error::DatabaseError`
trait: an opaque message plus an optional constraint name
(`DatabaseError::constraint`). -/
structure DatabaseError where
  message : String
  constraint : Option String
deriving DecidableEq, Repr

/-- The `sqlx::Error` enum, restricted to the structure the code
inspects: `sqlx::Error::Database(dbe)` versus every other variant
(collapsed into `other`, carrying an opaque description). -/
inductive SqlxError where
  | Database (dbe : DatabaseError)
  | other (msg : String)
deriving DecidableEq, Repr

/-- An `anyhow::Error`: an opaque error value; only its presence matters
to the code, its content is never inspected. -/
structure AnyhowError where
  msg : String
deriving DecidableEq, Repr

/-- The `Error` enum of `src/http/error.rs`. The `BadRequest` payload is
the `HashMap<Cow, Vec<Cow>>` field-error map, modelled as an association
list of (field name, ordered message list) entries. -/
inductive Error where
  | NotFound
  | UnprocessableEntity
  | BadRequest (errors : List (String × List String))
  | Forbidden
  | Unauthorized
  | Sqlx (e : SqlxError)
  | Anyhow (e : AnyhowError)
deriving DecidableEq, Repr

/-- The `HashMap::entry(key).or_insert_with(Vec::new).push(val)` step of
`Error::bad_request`: append `v` to the list stored at `k`, inserting a
fresh entry when `k` is absent. -/
def entryPush : List (String × List String) → String → String → List (String × List String)
  | [], k, v => [(k, [v])]
  | (k', vs) :: rest, k, v =>
      if k' = k then (k', vs ++ [v]) :: rest
      else (k', vs) :: entryPush rest k v

/-- The field-error map built by the loop body of `Error::bad_request`:
a left fold of `entryPush` over the supplied pairs, starting from the
empty map. -/
def badRequestMap (pairs : List (String × String)) : List (String × List String) :=
  pairs.foldl (fun acc p => entryPush acc p.1 p.2) []

/-- `Error::bad_request` (error.rs lines 56-71): folds an iterable of
(field, message) pairs into a `BadRequest` value. -/
def Error.bad_request (pairs : List (String × String)) : Error :=
  Error.BadRequest (badRequestMap pairs)

/-- `Error::status_code` (error.rs lines 73-82), with `StatusCode`
constants replaced by their numeric values. The wildcard arm covers
`Sqlx` and `Anyhow` exactly as in the source. -/
def Error.status_code : Error → Nat
  | .NotFound => 404
  | .UnprocessableEntity => 422
  | .Forbidden => 403
  | .Unauthorized => 401
  | .BadRequest _ => 400
  | _ => 500

/-- `Error::title` (error.rs lines 84-94). The wildcard arm covers
`Sqlx` and `Anyhow` exactly as in the source. -/
def Error.title : Error → String
  | .Unauthorized => "Unauthorized"
  | .BadRequest _ => "Bad Request"
  | .UnprocessableEntity => "Unprocessable Entity"
  | .Forbidden => "Forbidden"
  | .NotFound => "Not Found"
  | _ => "Internal Server Error"

/-- The `Display` implementation generated by `thiserror` from the
`#[error("...")]` attribute on each variant; `error.to_string()` in the
source renders these fixed strings. -/
def Error.toString : Error → String
  | .NotFound => "request path not found"
  | .UnprocessableEntity => ""
  | .BadRequest _ => "error in the request body"
  | .Forbidden => "user may not have access rights to the content"
  | .Unauthorized => "authorization required"
  | .Sqlx _ => "an error occurred with the database"
  | .Anyhow _ => "an internal server error has occurred"

/-- The `ErrorBody` struct (error.rs lines 96-101): the serialized JSON
error envelope with its three fields in declaration order. -/
structure ErrorBody where
  title : String
  status : Nat
  message : String
deriving DecidableEq, Repr

/-- `From<Error> for ErrorBody` (error.rs lines 119-127). -/
def ErrorBody.from (error : Error) : ErrorBody :=
  { title := error.title
    message := error.toString
    status := error.status_code }

/-- A JSON value, as far as serializing `ErrorBody` needs: strings and
numbers. -/
inductive Json where
  | str (s : String)
  | num (n : Nat)
deriving DecidableEq, Repr

/-- The serde-derived serialization of `ErrorBody`: a JSON object whose
fields are exactly the struct fields, in declaration order. -/
def ErrorBody.serialize (b : ErrorBody) : List (String × Json) :=
  [("title", Json.str b.title), ("status", Json.num b.status), ("message", Json.str b.message)]

/-- `StatusCode::from_u16` of the `http` crate: succeeds exactly on
values in `100..=999`, rejecting everything else. -/
def StatusCode.from_u16 (n : Nat) : Option Nat :=
  if 100 ≤ n ∧ n ≤ 999 then some n else none

/-- An HTTP response as assembled by `Error::into_response`: status,
header list, JSON body. -/
structure Response where
  status : Nat
  headers : List (String × String)
  body : ErrorBody
deriving DecidableEq, Repr

/-- `IntoResponse for Error` (error.rs lines 104-117): build the body,
round-trip the status through `StatusCode::from_u16` (the `.unwrap()`
is modelled by `Option`: `none` is a panic), and attach the
`WWW-Authenticate: Token` header exactly when the status is 401. -/
def Error.into_response (e : Error) : Option Response :=
  let body := ErrorBody.from e
  (StatusCode.from_u16 body.status).map fun status =>
    let headers := if status = 401 then [("www-authenticate", "Token")] else []
    { status := status, headers := headers, body := body }

/-- `ResultExt::on_constraint` (error.rs lines 162-178), generic over
the source error type `E : Into<Error>` via the explicit conversion
`into`. On `Err e`: if `into e` is a `Sqlx` database error whose
constraint equals `name`, replace it by `map_err dbe`; otherwise pass
the converted error through. -/
def on_constraint {T E : Type} (self : Except E T) (into : E → Error)
    (name : String) (map_err : DatabaseError → Error) : Except Error T :=
  match self with
  | .ok t => .ok t
  | .error e =>
      match into e with
      | .Sqlx (.Database dbe) =>
          if dbe.constraint = some name then .error (map_err dbe)
          else .error (.Sqlx (.Database dbe))
      | e' => .error e'

/-- The `Config` struct of `src/config.rs` (lines 11-21). -/
structure Config where
  database_url : String
  port : Nat
  address : String
deriving DecidableEq, Repr

/-- A socket address as built by `SocketAddr::from(([a,b,c,d], port))`. -/
structure SocketAddr where
  ip : List Nat
  port : Nat
deriving DecidableEq, Repr

/-- The bind address computed inside `serve` (http/mod.rs line 81):
`SocketAddr::from(([127, 0, 0, 1], 8080))`. The `config` parameter of
`serve` is in scope but unused by this expression. -/
def serve_bind_addr (_config : Config) : SocketAddr :=
  { ip := [127, 0, 0, 1], port := 8080 }

/-- An inbound HTTP request, as far as routing inspects it. -/
structure Request where
  method : String
  path : String
deriving DecidableEq, Repr

/-- `not_found_handler` (http/mod.rs lines 89-91): ignores the URI and
returns `Error::NotFound`. -/
def not_found_handler (_uri : String) : Error :=
  Error.NotFound

/-- A response of the router: either the plain-text answer of the health handler or an error response. -/
inductive AppResponse where
  | plain (status : Nat) (body : String)
  | err (r : Option Response)
deriving DecidableEq, Repr

/-- The router assembled in `serve`: `routes::router()` registers the
single path `/` with `get(health)` (routes/health_check.rs), an axum
method router that serves GET and also HEAD with
`(StatusCode::OK, "ok")` (the HTTP layer strips the HEAD body) and
answers any other method on that path with `405 Method Not Allowed`
(empty body); only a request whose path matches no registered route
reaches the router-level `.fallback(not_found_handler)`, whose error is
rendered through `Error::into_response`. -/
def route (req : Request) : AppResponse :=
  if req.path = "/" then
    if req.method = "GET" then AppResponse.plain 200 "ok"
    else if req.method = "HEAD" then AppResponse.plain 200 ""
    else AppResponse.plain 405 ""
  else AppResponse.err (Error.into_response (not_found_handler req.path))

/-- The messages supplied for field `k` among a list of (field, message)
pairs, in the order the pairs were supplied. -/
def messagesFor (k : String) (pairs : List (String × String)) : List String :=
  pairs.filterMap fun p => if p.1 = k then some p.2 else none

/-- Lookup in the association-list model of the `HashMap`: the value
stored under key `k`, if present. -/
def lookupErrors : List (String × List String) → String → Option (List String)
  | [], _ => none
  | (k', vs) :: rest, k => if k' = k then some vs else lookupErrors rest k

theorem lookupErrors_entryPush (m : List (String × List String)) (k v k' : String) :
    lookupErrors (entryPush m k v) k' =
      if k' = k then some (((lookupErrors m k).getD []) ++ [v])
      else lookupErrors m k' := by
  induction m with
  | nil =>
      by_cases h : k' = k
      · subst h; simp [entryPush, lookupErrors]
      · have h' : ¬ k = k' := fun hh => h hh.symm
        simp [entryPush, lookupErrors, h, h']
  | cons p rest ih =>
      obtain ⟨a, vs⟩ := p
      by_cases h1 : a = k
      · subst h1
        by_cases h2 : k' = a
        · subst h2; simp [entryPush, lookupErrors]
        · have h2' : ¬ a = k' := fun hh => h2 hh.symm
          simp [entryPush, lookupErrors, h2, h2']
      · by_cases h2 : k' = k
        · subst h2
          simp [entryPush, lookupErrors, h1, ih]
        · simp [entryPush, lookupErrors, h1, h2, ih]

theorem lookupErrors_foldl_entryPush (pairs : List (String × String))
    (m : List (String × List String)) (k : String) :
    lookupErrors (pairs.foldl (fun acc p => entryPush acc p.1 p.2) m) k =
      if lookupErrors m k = none ∧ messagesFor k pairs = [] then none
      else some (((lookupErrors m k).getD []) ++ messagesFor k pairs) := by
  induction pairs generalizing m with
  | nil =>
      cases h : lookupErrors m k <;> simp [messagesFor, h]
  | cons p rest ih =>
      obtain ⟨a, b⟩ := p
      rw [List.foldl_cons, ih, lookupErrors_entryPush]
      by_cases hk : k = a
      · subst hk
        cases h : lookupErrors m k <;>
          simp [messagesFor, h, List.filterMap_cons, List.append_assoc]
      · have hk' : ¬ a = k := fun hh => hk hh.symm
        simp only [messagesFor, List.filterMap_cons, if_neg hk, if_neg hk']

/-- C1: the rendered JSON body of every error variant has exactly the three
fields `title`, `status`, `message` (in that order), and `status` and
`title` are, per variant: NotFound → 404/"Not Found",
UnprocessableEntity → 422/"Unprocessable Entity", BadRequest →
400/"Bad Request", Forbidden → 403/"Forbidden", Unauthorized →
401/"Unauthorized", Sqlx → 500/"Internal Server Error", Anyhow →
500/"Internal Server Error". -/
theorem claim_C1 :
    (∀ e : Error, (ErrorBody.from e).serialize.map Prod.fst = ["title", "status", "message"]) ∧
    (ErrorBody.from Error.NotFound).status = 404 ∧
      (ErrorBody.from Error.NotFound).title = "Not Found" ∧
    (ErrorBody.from Error.UnprocessableEntity).status = 422 ∧
      (ErrorBody.from Error.UnprocessableEntity).title = "Unprocessable Entity" ∧
    (∀ m, (ErrorBody.from (Error.BadRequest m)).status = 400 ∧
      (ErrorBody.from (Error.BadRequest m)).title = "Bad Request") ∧
    (ErrorBody.from Error.Forbidden).status = 403 ∧
      (ErrorBody.from Error.Forbidden).title = "Forbidden" ∧
    (ErrorBody.from Error.Unauthorized).status = 401 ∧
      (ErrorBody.from Error.Unauthorized).title = "Unauthorized" ∧
    (∀ s, (ErrorBody.from (Error.Sqlx s)).status = 500 ∧
      (ErrorBody.from (Error.Sqlx s)).title = "Internal Server Error") ∧
    (∀ a, (ErrorBody.from (Error.Anyhow a)).status = 500 ∧
      (ErrorBody.from (Error.Anyhow a)).title = "Internal Server Error") :=
  ⟨fun e => by cases e <;> rfl, rfl, rfl, rfl, rfl, fun _ => ⟨rfl, rfl⟩,
    rfl, rfl, rfl, rfl, fun _ => ⟨rfl, rfl⟩, fun _ => ⟨rfl, rfl⟩⟩

/-- C2: the response of an error value carries the header
`WWW-Authenticate: Token` exactly when the variant is `Unauthorized`;
the response of every other variant has an empty header list. -/
theorem claim_C2 (e : Error) (r : Response) (h : e.into_response = some r) :
    (r.headers = [("www-authenticate", "Token")] ↔ e = Error.Unauthorized) ∧
    (r.headers = [] ↔ e ≠ Error.Unauthorized) := by
  cases e <;>
    simp only [Error.into_response, ErrorBody.from, Error.status_code,
      StatusCode.from_u16, Option.map] at h <;>
    simp at h <;> subst h <;> simp

/-- Witness for C2 at the `Unauthorized` variants concrete response. -/
theorem claim_C2_witness :
    (([("www-authenticate", "Token")] : List (String × String)) = [("www-authenticate", "Token")]
        ↔ Error.Unauthorized = Error.Unauthorized) ∧
    (([("www-authenticate", "Token")] : List (String × String)) = []
        ↔ Error.Unauthorized ≠ Error.Unauthorized) :=
  claim_C2 Error.Unauthorized
    { status := 401, headers := [("www-authenticate", "Token")],
      body := { title := "Unauthorized", status := 401, message := "authorization required" } }
    rfl

/-- C3: `on_constraint` on an `Err` carrying a Sqlx database error
yields the caller-supplied replacement exactly when the constraint name
matches, the original error otherwise; every non-database error variant
passes through unchanged, whatever the requested name. -/
theorem claim_C3 (T : Type) (name : String) (f : DatabaseError → Error) :
    (∀ dbe : DatabaseError,
      on_constraint (Except.error (Error.Sqlx (SqlxError.Database dbe)) : Except Error T) id name f =
        Except.error (if dbe.constraint = some name then f dbe
          else Error.Sqlx (SqlxError.Database dbe))) ∧
    (∀ msg, on_constraint (Except.error (Error.Sqlx (SqlxError.other msg)) : Except Error T) id name f =
      Except.error (Error.Sqlx (SqlxError.other msg))) ∧
    on_constraint (Except.error Error.NotFound : Except Error T) id name f =
      Except.error Error.NotFound ∧
    on_constraint (Except.error Error.UnprocessableEntity : Except Error T) id name f =
      Except.error Error.UnprocessableEntity ∧
    (∀ m, on_constraint (Except.error (Error.BadRequest m) : Except Error T) id name f =
      Except.error (Error.BadRequest m)) ∧
    on_constraint (Except.error Error.Forbidden : Except Error T) id name f =
      Except.error Error.Forbidden ∧
    on_constraint (Except.error Error.Unauthorized : Except Error T) id name f =
      Except.error Error.Unauthorized ∧
    (∀ a, on_constraint (Except.error (Error.Anyhow a) : Except Error T) id name f =
      Except.error (Error.Anyhow a)) := by
  refine ⟨fun dbe => ?_, fun _ => rfl, rfl, rfl, fun _ => rfl, rfl, rfl, fun _ => rfl⟩
  by_cases h : dbe.constraint = some name <;> simp [on_constraint, h]

/-- C4: `Error::bad_request` builds a `BadRequest` whose map sends each
field name to exactly the messages supplied for it, in supply order
(later duplicates append); in particular the two "username" messages of
the spec example end up as the ordered two-element list. -/
theorem claim_C4 :
    (∀ pairs, Error.bad_request pairs = Error.BadRequest (badRequestMap pairs)) ∧
    (∀ pairs k, lookupErrors (badRequestMap pairs) k =
      if messagesFor k pairs = [] then none else some (messagesFor k pairs)) ∧
    lookupErrors (badRequestMap [("username", "too short"), ("username", "not alphanumeric")])
      "username" = some ["too short", "not alphanumeric"] := by
  refine ⟨fun _ => rfl, fun pairs k => ?_, by decide⟩
  rw [badRequestMap, lookupErrors_foldl_entryPush]
  by_cases h : messagesFor k pairs = [] <;> simp [lookupErrors, h]

/-- C5: the rendered body of any `BadRequest` has the fixed message
"error in the request body"; its serialization is one fixed JSON object,
independent of the field-error map, so the map is never serialized. -/
theorem claim_C5 :
    ∀ m, (ErrorBody.from (Error.BadRequest m)).message = "error in the request body" ∧
    (ErrorBody.from (Error.BadRequest m)).serialize =
      [("title", Json.str "Bad Request"), ("status", Json.num 400),
       ("message", Json.str "error in the request body")] ∧
    ∀ m', ErrorBody.from (Error.BadRequest m) = ErrorBody.from (Error.BadRequest m') :=
  fun _ => ⟨rfl, rfl, fun _ => rfl⟩

/-- C6: any two `Sqlx` errors render to identical bodies with the fixed
message "an error occurred with the database", and any two `Anyhow`
errors render to identical bodies with the fixed message "an internal
server error has occurred": nothing from the wrapped cause reaches the
client. -/
theorem claim_C6 :
    ∀ (s s' : SqlxError) (a a' : AnyhowError),
      ErrorBody.from (Error.Sqlx s) = ErrorBody.from (Error.Sqlx s') ∧
      (ErrorBody.from (Error.Sqlx s)).message = "an error occurred with the database" ∧
      ErrorBody.from (Error.Anyhow a) = ErrorBody.from (Error.Anyhow a') ∧
      (ErrorBody.from (Error.Anyhow a)).message = "an internal server error has occurred" :=
  fun _ _ _ _ => ⟨rfl, rfl, rfl, rfl⟩

/-- C7: rendering is total: for every error value `into_response`
succeeds (the `StatusCode::from_u16(...).unwrap()` cannot panic),
because the status code of every variant lies in the valid range. -/
theorem claim_C7 :
    ∀ e : Error, (∃ r : Response, e.into_response = some r) ∧
      StatusCode.from_u16 (ErrorBody.from e).status = some (ErrorBody.from e).status :=
  fun e => by cases e <;> exact ⟨⟨_, rfl⟩, rfl⟩

/-- C8: every request whose path matches no registered route (the only
registered path is `/`) reaches the fallback, which returns
`Error::NotFound` for every URI, so the response is status 404 with
title "Not Found" and message "request path not found". Requests on the
registered path with a non-matching method are answered by the method
router (405, or 200 for HEAD), not by the fallback. -/
theorem claim_C8 (req : Request) (h : req.path ≠ "/") :
    not_found_handler req.path = Error.NotFound ∧
    route req = AppResponse.err (some
      { status := 404, headers := [],
        body := { title := "Not Found", status := 404, message := "request path not found" } }) :=
  ⟨rfl, by simp [route, h]; rfl⟩

/-- Witness for C8 at the concrete unmatched request `GET /does-not-exist`. -/
theorem claim_C8_witness :
    not_found_handler "/does-not-exist" = Error.NotFound ∧
    route { method := "GET", path := "/does-not-exist" } = AppResponse.err (some
      { status := 404, headers := [],
        body := { title := "Not Found", status := 404, message := "request path not found" } }) :=
  claim_C8 { method := "GET", path := "/does-not-exist" } (by decide)

/-- C9: `serve` binds the listener to the hardcoded address
127.0.0.1:8080 for every configuration; the configured `port` and
`address` fields have no effect on the bind address. -/
theorem claim_C9 :
    ∀ c : Config, serve_bind_addr c = { ip := [127, 0, 0, 1], port := 8080 } ∧
      ∀ c' : Config, serve_bind_addr c = serve_bind_addr c' :=
  fun _ => ⟨rfl, fun _ => rfl⟩

/-- C10: `on_constraint` returns an `Ok` result unchanged for every
constraint name and remapping function, and passes a Sqlx database
error carrying no constraint name through unchanged. -/
theorem claim_C10 :
    ∀ (T E : Type) (t : T) (into : E → Error) (name : String)
      (f : DatabaseError → Error) (msg : String),
      on_constraint (Except.ok t : Except E T) into name f = Except.ok t ∧
      on_constraint (Except.error (Error.Sqlx (SqlxError.Database
          { message := msg, constraint := none })) : Except Error T) id name f =
        Except.error (Error.Sqlx (SqlxError.Database
          { message := msg, constraint := none })) :=
  fun _ _ _ _ _ _ _ => ⟨rfl, by simp [on_constraint]⟩

end Server
